import Mathlib

/-!
Shallow embedding of `src/cpu.py` (an LS-8 CPU emulator) in Lean 4.

Conventions of the embedding:
* Python `int` is `Int` (arbitrary precision, no implicit truncation).
* Python list indexing `l[i]` wraps negative indices (`l[-1]` is the last
  element) and raises `IndexError` outside `[-len, len)`; `pyGet`/`pySet`
  model this exactly.
* Python `%` on ints is floored modulo (`Int.fmod`), `>>` is an arithmetic
  shift (floor division by a power of two), `<<` is multiplication by a
  power of two; a negative shift count raises `ValueError`.
* Fallible Python code is modelled in `Except PyErr`; an uncaught exception
  terminates the run with that error.
* `print` output is collected in an `output` list on the state.
-/

set_option maxRecDepth 100000

namespace LS8

/-- Python exceptions that the source can raise. -/
inductive PyErr where
  | indexError : PyErr
  | valueError : String → PyErr
  | zeroDivisionError : PyErr
  | exception : String → PyErr
deriving Repr, DecidableEq

/-- Python values an ALU call can return: an int, a float (true division
`A / B` in `alu` returns a float, modelled as a rational), or `None`
(the implicit return when `CMP` falls through all three comparisons). -/
inductive PyVal where
  | vint : Int → PyVal
  | vfloat : Rat → PyVal
  | vnone : PyVal
deriving Repr, DecidableEq

/-- Normalise a Python list index for a list of length `len`: indices in
`[0, len)` are used directly, indices in `[-len, 0)` wrap to `i + len`,
anything else is out of range (`none`). -/
def pyIdx (len : Nat) (i : Int) : Option Nat :=
  if 0 ≤ i ∧ i < (len : Int) then some i.toNat
  else if -(len : Int) ≤ i ∧ i < 0 then some (i + (len : Int)).toNat
  else none

/-- Python `l[i]` for a list of ints: wraps negative indices, raises
`IndexError` out of range. -/
def pyGet (l : List Int) (i : Int) : Except PyErr Int :=
  match pyIdx l.length i with
  | some n => .ok (l.getD n 0)
  | none => .error .indexError

/-- Python `l[i] = v`: wraps negative indices, raises `IndexError` out of
range; otherwise replaces the element and changes nothing else. -/
def pySet (l : List Int) (i : Int) (v : Int) : Except PyErr (List Int) :=
  match pyIdx l.length i with
  | some n => .ok (l.set n v)
  | none => .error .indexError

/-- Python `a >> n` on ints: arithmetic shift, i.e. floor division by
`2 ^ n`. -/
def intShr (a : Int) (n : Nat) : Int := Int.fdiv a (2 ^ n)

/-- Python `a << n` on ints: multiplication by `2 ^ n`. -/
def intShl (a : Int) (n : Nat) : Int := a * 2 ^ n

/-- The machine state of `CPU`: the fields set up by `CPU.__init__`,
plus the `running` flag (a local of `CPU.run`) and the collected
`print` output.  Note `self.sp = self.reg[7]` in `__init__` copies the
current *value* of register 7 (Python ints are immutable), so `sp` is an
independent field, not an alias of `reg[7]`. -/
structure CPUState where
  reg : List Int       -- self.reg = [0] * 8
  ram : List Int       -- self.ram = [0] * 256
  sp : Int             -- self.sp = self.reg[7]
  pc : Int             -- self.pc = 0
  ir : Int             -- self.ir = 0b00000001
  fl : Int             -- self.fl = 0b00000000
  running : Bool
  output : List Int
deriving Repr, DecidableEq

/-- `CPU.__init__`: registers and RAM zeroed, `sp` is the (copied) value of
`reg[7]`, i.e. `0`. -/
def initState : CPUState :=
  { reg := List.replicate 8 0
    ram := List.replicate 256 0
    sp := (List.replicate 8 (0 : Int)).getD 7 0
    pc := 0
    ir := 0b00000001
    fl := 0b00000000
    running := true
    output := [] }

/-- `CPU.alu`: reads `A = self.reg[reg_a]`, `B = self.reg[reg_b]` and
dispatches on the operation string, exactly as the source does.  `DIV`
uses Python true division (a float) and raises `ZeroDivisionError` on a
zero divisor; `MOD` raises `ValueError("Division by 0")`; `CMP` returns
one of the three flag patterns or falls through to `None`; an unknown
operation raises `Exception("Unsupported ALU operation")`. -/
def alu (reg : List Int) (op : String) (reg_a reg_b : Int) :
    Except PyErr PyVal := do
  let A ← pyGet reg reg_a
  let B ← pyGet reg reg_b
  if op == "ADD" then pure (.vint (A + B))
  else if op == "SUB" then pure (.vint (A - B))
  else if op == "MUL" then pure (.vint (A * B))
  else if op == "DIV" then
    if B = 0 then throw .zeroDivisionError
    else pure (.vfloat ((A : Rat) / (B : Rat)))
  else if op == "MOD" then
    if B = 0 then throw (.valueError "Division by 0")
    else pure (.vint (Int.fmod A B))
  else if op == "CMP" then
    if A = B then pure (.vint 0b00000001)
    else if A > B then pure (.vint 0b00000010)
    else if A < B then pure (.vint 0b00000100)
    else pure .vnone
  else if op == "AND" then pure (.vint (Int.land A B))
  else if op == "OR" then pure (.vint (Int.lor A B))
  else if op == "XOR" then pure (.vint (Int.xor A B))
  else if op == "NOT" then pure (.vint (0b11111111 - A))
  else if op == "SHL" then
    if B < 0 then throw (.valueError "negative shift count")
    else pure (.vint (intShl A B.toNat))
  else if op == "SHR" then
    if B < 0 then throw (.valueError "negative shift count")
    else pure (.vint (intShr A B.toNat))
  else throw (.exception "Unsupported ALU operation")

/-- Extract the int from an ALU result before storing it into a register or
the flag field.  Every ALU call the dispatch loop actually makes returns an
int (the float/None branches are unreachable from `run`), so the error
branch here never fires on those call sites. -/
def PyVal.toIntE : PyVal → Except PyErr Int
  | .vint n => .ok n
  | _ => .error (.exception "non-integer value")

/-- `CPU.ram_read`. -/
def ram_read (s : CPUState) (address : Int) : Except PyErr Int :=
  pyGet s.ram address

/-- `CPU.ram_write`. -/
def ram_write (s : CPUState) (address value : Int) :
    Except PyErr CPUState := do
  let ram ← pySet s.ram address value
  pure { s with ram }

/-- `CPU.pc_increment`: mask the top two bits of the instruction, shift
them down, add one. -/
def pc_increment (instruction : Int) : Int :=
  intShr (Int.land instruction 0b11000000) 6 + 0b1

/-- One iteration of the `while running` loop body of `CPU.run`: fetch the
byte at `pc`, record it in `ir`, then run the `if/elif` dispatch chain in
source order.  The `SUB` and `DIV` arms are literally `pass` in the source,
so they change nothing beyond `ir`; a byte matching no arm likewise falls
through the whole chain and changes nothing beyond `ir`. -/
def step (s : CPUState) : Except PyErr CPUState := do
  let instruction ← ram_read s s.pc
  let s : CPUState := { s with ir := instruction }
  if instruction = 0b10000010 then        -- LDI
    let register_num ← ram_read s (s.pc + 1)
    let value ← ram_read s (s.pc + 2)
    let reg ← pySet s.reg register_num value
    pure { s with reg, pc := s.pc + pc_increment instruction }
  else if instruction = 0b01000111 then   -- PRN
    let register_num ← ram_read s (s.pc + 1)
    let v ← pyGet s.reg register_num
    pure { s with output := s.output ++ [v],
                  pc := s.pc + pc_increment instruction }
  else if instruction = 0b00000001 then   -- HLT
    pure { s with running := false }
  else if instruction = 0b01000101 then   -- PUSH
    let sp := s.sp - 1
    let register_num ← ram_read s (s.pc + 1)
    let value ← pyGet s.reg register_num
    let ram ← pySet s.ram sp value
    pure { s with sp, ram, pc := s.pc + pc_increment instruction }
  else if instruction = 0b01000110 then   -- POP
    let value ← ram_read s s.sp
    let register_num ← ram_read s (s.pc + 1)
    let reg ← pySet s.reg register_num value
    pure { s with reg, sp := s.sp + 1,
                  pc := s.pc + pc_increment instruction }
  else if instruction = 0b01010000 then   -- CALL
    let return_address := s.pc + 2
    let sp := s.sp - 1
    let ram ← pySet s.ram sp return_address
    let register_num ← ram_read s (s.pc + 1)
    let subroutine_PC ← pyGet s.reg register_num
    pure { s with sp, ram, pc := subroutine_PC }
  else if instruction = 0b00010001 then   -- RET
    let return_address ← ram_read s s.sp
    pure { s with sp := s.sp + 1, pc := return_address }
  else if instruction = 0b01010100 then   -- JMP
    let register_num ← ram_read s (s.pc + 1)
    let target ← pyGet s.reg register_num
    pure { s with pc := target }
  else if instruction = 0b01010101 then   -- JEQ
    let register_num ← ram_read s (s.pc + 1)
    if Int.land s.fl 0b00000001 ≠ 0 then
      let target ← pyGet s.reg register_num
      pure { s with pc := target }
    else
      pure { s with pc := s.pc + pc_increment instruction }
  else if instruction = 0b01010110 then   -- JNE
    let register_num ← ram_read s (s.pc + 1)
    if s.fl ≠ 0b00000001 then
      let target ← pyGet s.reg register_num
      pure { s with pc := target }
    else
      pure { s with pc := s.pc + pc_increment instruction }
  else if instruction = 0b10100000 then   -- ADD
    let register_num_A ← ram_read s (s.pc + 1)
    let register_num_B ← ram_read s (s.pc + 2)
    let product ← alu s.reg "ADD" register_num_A register_num_B
    let product ← product.toIntE
    let reg ← pySet s.reg register_num_A product
    pure { s with reg, pc := s.pc + pc_increment instruction }
  else if instruction = 0b10100010 then   -- MUL
    let register_num_A ← ram_read s (s.pc + 1)
    let register_num_B ← ram_read s (s.pc + 2)
    let product ← alu s.reg "MUL" register_num_A register_num_B
    let product ← product.toIntE
    let reg ← pySet s.reg register_num_A product
    pure { s with reg, pc := s.pc + pc_increment instruction }
  else if instruction = 0b10100001 then   -- SUB: the source arm is `pass`
    pure s
  else if instruction = 0b10100011 then   -- DIV: the source arm is `pass`
    pure s
  else if instruction = 0b10100100 then   -- MOD
    let register_num_A ← ram_read s (s.pc + 1)
    let register_num_B ← ram_read s (s.pc + 2)
    let result ← alu s.reg "MOD" register_num_A register_num_B
    let result ← result.toIntE
    let reg ← pySet s.reg register_num_A result
    pure { s with reg, pc := s.pc + pc_increment instruction }
  else if instruction = 0b10100111 then   -- CMP
    let register_num_A ← ram_read s (s.pc + 1)
    let register_num_B ← ram_read s (s.pc + 2)
    let new_flag ← alu s.reg "CMP" register_num_A register_num_B
    let new_flag ← new_flag.toIntE
    pure { s with fl := new_flag, pc := s.pc + pc_increment instruction }
  else if instruction = 0b10101000 then   -- AND
    let register_num_A ← ram_read s (s.pc + 1)
    let register_num_B ← ram_read s (s.pc + 2)
    let result ← alu s.reg "AND" register_num_A register_num_B
    let result ← result.toIntE
    let reg ← pySet s.reg register_num_A result
    pure { s with reg, pc := s.pc + pc_increment instruction }
  else if instruction = 0b10101010 then   -- OR
    let register_num_A ← ram_read s (s.pc + 1)
    let register_num_B ← ram_read s (s.pc + 2)
    let result ← alu s.reg "OR" register_num_A register_num_B
    let result ← result.toIntE
    let reg ← pySet s.reg register_num_A result
    pure { s with reg, pc := s.pc + pc_increment instruction }
  else if instruction = 0b10101011 then   -- XOR
    let register_num_A ← ram_read s (s.pc + 1)
    let register_num_B ← ram_read s (s.pc + 2)
    let result ← alu s.reg "XOR" register_num_A register_num_B
    let result ← result.toIntE
    let reg ← pySet s.reg register_num_A result
    pure { s with reg, pc := s.pc + pc_increment instruction }
  else if instruction = 0b01101001 then   -- NOT
    let register_num_A ← ram_read s (s.pc + 1)
    let result ← alu s.reg "NOT" register_num_A register_num_A
    let result ← result.toIntE
    let reg ← pySet s.reg register_num_A result
    pure { s with reg, pc := s.pc + pc_increment instruction }
  else if instruction = 0b10101100 then   -- SHL
    let register_num_A ← ram_read s (s.pc + 1)
    let register_num_B ← ram_read s (s.pc + 2)
    let result ← alu s.reg "SHL" register_num_A register_num_B
    let result ← result.toIntE
    let reg ← pySet s.reg register_num_A result
    pure { s with reg, pc := s.pc + pc_increment instruction }
  else if instruction = 0b10101101 then   -- SHR
    let register_num_A ← ram_read s (s.pc + 1)
    let register_num_B ← ram_read s (s.pc + 2)
    let result ← alu s.reg "SHR" register_num_A register_num_B
    let result ← result.toIntE
    let reg ← pySet s.reg register_num_A result
    pure { s with reg, pc := s.pc + pc_increment instruction }
  else
    -- no `else` clause in the source: an unmatched byte falls through the
    -- whole chain and the loop repeats with an unchanged state
    pure s

/-- The prologue of `CPU.run` before the loop: `self.reg[7] = 0xF4`.
Note the separate `sp` field is *not* updated. -/
def runInit (s : CPUState) : CPUState :=
  { s with reg := s.reg.set 7 0xF4 }

/-- The `while running` loop of `CPU.run`, with explicit fuel.  Returns
`.ok (some s)` when the loop exits normally (HLT cleared `running`),
`.ok none` when the fuel runs out with the machine still running, and
`.error e` when an iteration raises an uncaught exception. -/
def runLoop : Nat → CPUState → Except PyErr (Option CPUState)
  | 0, s => if s.running then .ok none else .ok (some s)
  | n + 1, s =>
    if s.running then do
      let s' ← step s
      runLoop n s'
    else .ok (some s)

/-- `CPU.run`: set `reg[7]` to `0xF4`, then loop. -/
def run (fuel : Nat) (s : CPUState) : Except PyErr (Option CPUState) :=
  runLoop fuel (runInit s)

/-- The set of opcode bytes the dispatch chain of `CPU.run` recognises. -/
def knownOpcodes : List Int :=
  [0b10000010, 0b01000111, 0b00000001, 0b01000101, 0b01000110,
   0b01010000, 0b00010001, 0b01010100, 0b01010101, 0b01010110,
   0b10100000, 0b10100010, 0b10100001, 0b10100011, 0b10100100,
   0b10100111, 0b10101000, 0b10101010, 0b10101011, 0b01101001,
   0b10101100, 0b10101101]

/-! ### Helper lemmas about the embedding -/

theorem pyIdx_pos (len : Nat) (i : Int) (h0 : 0 ≤ i) (h1 : i < (len : Int)) :
    pyIdx len i = some i.toNat := by
  simp [pyIdx, h0, h1]

theorem pyGet_ok (l : List Int) (i : Int) (h0 : 0 ≤ i)
    (h1 : i < (l.length : Int)) :
    pyGet l i = .ok (l.getD i.toNat 0) := by
  simp [pyGet, pyIdx_pos l.length i h0 h1]

theorem pySet_ok (l : List Int) (i v : Int) (h0 : 0 ≤ i)
    (h1 : i < (l.length : Int)) :
    pySet l i v = .ok (l.set i.toNat v) := by
  simp [pySet, pyIdx_pos l.length i h0 h1]

/-! ### Claim C1: is the stack pointer held in R7? -/

/-- Start-of-run state whose program is a single `PUSH R3` and whose `R3`
holds `42`: the concrete state used to exhibit a stack operation. -/
def c1PushState : CPUState :=
  runInit { initState with
              ram := ((List.replicate 256 0).set 0 0b01000101).set 1 3
              reg := (List.replicate 8 0).set 3 42 }

/-- C1: the claim that SP and R7 are the same storage is false in the code.
`CPU.__init__` copies the value of `reg[7]` (then `0`) into the separate
attribute `self.sp`; `CPU.run` sets `reg[7] = 0xF4` but never updates
`self.sp`, so at the start of execution `reg[7] = 0xF4` while `sp = 0`;
and a `PUSH` updates `sp` (to `-1`, wrapping the RAM write to cell 255)
while leaving `reg[7]` untouched. -/
theorem c1_sp_is_not_r7 :
    (runInit initState).reg.getD 7 0 = 0xF4 ∧
    (runInit initState).sp = 0 ∧
    (runInit initState).sp ≠ (runInit initState).reg.getD 7 0 ∧
    (step c1PushState).toOption.map
        (fun s => (s.sp, s.reg.getD 7 0, s.ram.getD 255 0))
      = some (-1, 0xF4, 42) := by
  refine ⟨rfl, rfl, by decide, rfl⟩

/-! ### Claim C2: are SUB and DIV wired through the dispatch loop? -/

/-- State at a `SUB R0,R1` instruction with `R0 = 7`, `R1 = 3` (and `ir`
already holding the fetched byte, as it does from the second loop
iteration on). -/
def c2SubState : CPUState :=
  { runInit initState with
      ram := (((List.replicate 256 0).set 0 0b10100001).set 1 0).set 2 1
      reg := (((List.replicate 8 0).set 0 7).set 1 3).set 7 0xF4
      ir := 0b10100001 }

/-- State at a `DIV R0,R1` instruction with `R0 = 7`, `R1 = 3`. -/
def c2DivState : CPUState :=
  { runInit initState with
      ram := (((List.replicate 256 0).set 0 0b10100011).set 1 0).set 2 1
      reg := (((List.replicate 8 0).set 0 7).set 1 3).set 7 0xF4
      ir := 0b10100011 }

/-- C2: the claim that opcodes `10100001` (SUB) and `10100011` (DIV) read
their operands, store the ALU result in regA and advance the PC is false
in the code: both dispatch arms are literally `pass`, so a step at a SUB
or DIV instruction returns the state unchanged (regA keeps its old value,
PC does not move) and the run loop never terminates, for any amount of
fuel. -/
theorem c2_sub_div_are_not_wired :
    step c2SubState = .ok c2SubState ∧
    (∀ n, runLoop n c2SubState = .ok none) ∧
    step c2DivState = .ok c2DivState ∧
    (∀ n, runLoop n c2DivState = .ok none) := by
  have hrun1 : c2SubState.running = true := rfl
  have hrun2 : c2DivState.running = true := rfl
  have hs1 : step c2SubState = .ok c2SubState := by rfl
  have hs2 : step c2DivState = .ok c2DivState := by rfl
  refine ⟨hs1, ?_, hs2, ?_⟩
  · intro n
    induction n with
    | zero => simp [runLoop, hrun1]
    | succ n ih => simp [runLoop, hrun1, hs1, bind, Except.bind, ih]
  · intro n
    induction n with
    | zero => simp [runLoop, hrun2]
    | succ n ih => simp [runLoop, hrun2, hs2, bind, Except.bind, ih]

/-! ### Claims C3 and C7: the ALU on a two-register file `[x, y]` -/

theorem alu_pair_ADD (x y : Int) : alu [x, y] "ADD" 0 1 = .ok (.vint (x + y)) := rfl

theorem alu_pair_SUB (x y : Int) : alu [x, y] "SUB" 0 1 = .ok (.vint (x - y)) := rfl

theorem alu_pair_MUL (x y : Int) : alu [x, y] "MUL" 0 1 = .ok (.vint (x * y)) := rfl

theorem alu_pair_AND (x y : Int) :
    alu [x, y] "AND" 0 1 = .ok (.vint (Int.land x y)) := rfl

theorem alu_pair_OR (x y : Int) :
    alu [x, y] "OR" 0 1 = .ok (.vint (Int.lor x y)) := rfl

theorem alu_pair_XOR (x y : Int) :
    alu [x, y] "XOR" 0 1 = .ok (.vint (Int.xor x y)) := rfl

theorem alu_pair_SHL (a b : Nat) :
    alu [(a : Int), (b : Int)] "SHL" 0 1 = .ok (.vint (intShl (a : Int) b)) := by
  have h : ¬ ((b : Int) < 0) := by omega
  simp [alu, pyGet, pyIdx, bind, Except.bind, pure, Except.pure, h,
        Int.toNat_natCast]

theorem alu_pair_SHR (a b : Nat) :
    alu [(a : Int), (b : Int)] "SHR" 0 1 = .ok (.vint (intShr (a : Int) b)) := by
  have h : ¬ ((b : Int) < 0) := by omega
  simp [alu, pyGet, pyIdx, bind, Except.bind, pure, Except.pure, h,
        Int.toNat_natCast]

theorem intShr_natCast (a b : Nat) :
    intShr (a : Int) b = ((a / 2 ^ b : Nat) : Int) := by
  unfold intShr
  rw [show ((2 : Int) ^ b) = ((2 ^ b : Nat) : Int) by push_cast; ring]
  rw [Int.fdiv_eq_tdiv (Int.natCast_nonneg a), ← Int.ofNat_tdiv]
  exact Int.natCast_nonneg _

/-- C3 (counterexample): the ALU result is not truncated to 8 bits and not
always in `[0, 256)`: `ADD` on register values `255` and `1` returns `256`,
and `SHL` of `1` by `8` positions returns `256`, not `0`. -/
theorem c3_counterexample :
    alu [255, 1] "ADD" 0 1 = .ok (.vint 256) ∧
    ¬ ((256 : Int) < 256) ∧
    alu [1, 8] "SHL" 0 1 = .ok (.vint 256) ∧
    (256 : Int) ≠ 0 := by
  refine ⟨rfl, by decide, rfl, by decide⟩

/-- C3 (amended): for every op in {ADD, SUB, MUL, AND, OR, XOR, SHL, SHR}
and 8-bit register values `a`, `b`, the ALU is deterministic and returns
the exact, untruncated integer result: `ADD`, `SUB`, `MUL` return
`a + b`, `a - b` (possibly negative), `a * b`; `AND`, `OR`, `XOR` return
the bitwise result, which does lie in `[0, 256)`; `SHL` returns
`a * 2 ^ b` (so shifting by 8 or more does not yield 0 unless `a = 0`);
`SHR` returns `a / 2 ^ b`, which lies in `[0, 256)` and is `0` whenever
`b ≥ 8`. -/
theorem c3_alu_exact_untruncated (a b : Nat) (ha : a < 256) (hb : b < 256) :
    alu [(a : Int), (b : Int)] "ADD" 0 1 = .ok (.vint ((a : Int) + (b : Int))) ∧
    alu [(a : Int), (b : Int)] "SUB" 0 1 = .ok (.vint ((a : Int) - (b : Int))) ∧
    alu [(a : Int), (b : Int)] "MUL" 0 1 = .ok (.vint ((a : Int) * (b : Int))) ∧
    (alu [(a : Int), (b : Int)] "AND" 0 1 = .ok (.vint ((a &&& b : Nat) : Int)) ∧
      0 ≤ ((a &&& b : Nat) : Int) ∧ ((a &&& b : Nat) : Int) < 256) ∧
    (alu [(a : Int), (b : Int)] "OR" 0 1 = .ok (.vint ((a ||| b : Nat) : Int)) ∧
      0 ≤ ((a ||| b : Nat) : Int) ∧ ((a ||| b : Nat) : Int) < 256) ∧
    (alu [(a : Int), (b : Int)] "XOR" 0 1 = .ok (.vint ((a ^^^ b : Nat) : Int)) ∧
      0 ≤ ((a ^^^ b : Nat) : Int) ∧ ((a ^^^ b : Nat) : Int) < 256) ∧
    alu [(a : Int), (b : Int)] "SHL" 0 1 = .ok (.vint ((a : Int) * 2 ^ b)) ∧
    (alu [(a : Int), (b : Int)] "SHR" 0 1 = .ok (.vint ((a / 2 ^ b : Nat) : Int)) ∧
      0 ≤ ((a / 2 ^ b : Nat) : Int) ∧ ((a / 2 ^ b : Nat) : Int) < 256) ∧
    (8 ≤ b → alu [(a : Int), (b : Int)] "SHR" 0 1 = .ok (.vint 0)) := by
  have hand : a &&& b < 256 := by
    have := Nat.and_lt_two_pow a (show b < 2 ^ 8 by omega)
    omega
  have hor : a ||| b < 256 := by
    have := Nat.or_lt_two_pow (show a < 2 ^ 8 by omega) (show b < 2 ^ 8 by omega)
    omega
  have hxor : a ^^^ b < 256 := by
    have := Nat.xor_lt_two_pow (show a < 2 ^ 8 by omega) (show b < 2 ^ 8 by omega)
    omega
  have hshr : a / 2 ^ b < 256 := Nat.lt_of_le_of_lt (Nat.div_le_self a _) ha
  refine ⟨alu_pair_ADD _ _, alu_pair_SUB _ _, alu_pair_MUL _ _,
          ⟨by rw [alu_pair_AND]; rfl, by omega, by omega⟩,
          ⟨by rw [alu_pair_OR]; rfl, by omega, by omega⟩,
          ⟨by rw [alu_pair_XOR]; rfl, by omega, by omega⟩,
          ?_, ⟨by rw [alu_pair_SHR, intShr_natCast], Int.natCast_nonneg _,
               by exact_mod_cast hshr⟩, ?_⟩
  · rw [alu_pair_SHL]
    unfold intShl
    norm_num
  · intro h8
    rw [alu_pair_SHR, intShr_natCast]
    have h2 : (256 : Nat) ≤ 2 ^ b := by
      calc (256 : Nat) = 2 ^ 8 := by norm_num
      _ ≤ 2 ^ b := Nat.pow_le_pow_right (by norm_num) h8
    rw [Nat.div_eq_of_lt (lt_of_lt_of_le ha h2)]
    rfl

/-- C3 witness: the amended ALU theorem applied at `a = 12`, `b = 10`. -/
theorem c3_alu_exact_untruncated_witness :
    alu [((12 : Nat) : Int), ((10 : Nat) : Int)] "ADD" 0 1
      = .ok (.vint (((12 : Nat) : Int) + ((10 : Nat) : Int))) :=
  (c3_alu_exact_untruncated 12 10 (by decide) (by decide)).1

/-- C7: `ALU(CMP, a, b)` always returns exactly one of the three flag
patterns: `1` (Equal, bit 0) exactly when `a = b`, `2` (Greater, bit 1)
exactly when `a > b`, `4` (Less, bit 2) exactly when `a < b` — never zero
of them and never more than one — and comparing a value with itself always
yields the Equal pattern alone. -/
theorem c7_cmp_exactly_one_flag (a b : Int) :
    (∃ f : Int, alu [a, b] "CMP" 0 1 = .ok (.vint f) ∧
      (f = 1 ∨ f = 2 ∨ f = 4)) ∧
    (alu [a, b] "CMP" 0 1 = .ok (.vint 1) ↔ a = b) ∧
    (alu [a, b] "CMP" 0 1 = .ok (.vint 2) ↔ b < a) ∧
    (alu [a, b] "CMP" 0 1 = .ok (.vint 4) ↔ a < b) ∧
    alu [a, a] "CMP" 0 1 = .ok (.vint 1) := by
  have hself : alu [a, a] "CMP" 0 1 = .ok (.vint 1) := by
    simp [alu, pyGet, pyIdx, bind, Except.bind, pure, Except.pure]
  rcases lt_trichotomy a b with h | h | h
  · have hc : alu [a, b] "CMP" 0 1 = .ok (.vint 4) := by
      simp [alu, pyGet, pyIdx, bind, Except.bind, pure, Except.pure,
            show a ≠ b from ne_of_lt h, show ¬ (a > b) from not_lt.mpr h.le, h]
    refine ⟨⟨4, hc, by omega⟩, ?_, ?_, ?_, hself⟩ <;> rw [hc]
    · exact ⟨fun hx => absurd hx (by simp), fun hab => absurd hab (ne_of_lt h)⟩
    · exact ⟨fun hx => absurd hx (by simp),
             fun hba => absurd h (not_lt.mpr hba.le)⟩
    · exact ⟨fun _ => h, fun _ => rfl⟩
  · subst h
    refine ⟨⟨1, hself, by omega⟩, ?_, ?_, ?_, hself⟩ <;> rw [hself]
    · exact ⟨fun _ => rfl, fun _ => rfl⟩
    · exact ⟨fun hx => absurd hx (by simp), fun hx => absurd hx (lt_irrefl a)⟩
    · exact ⟨fun hx => absurd hx (by simp), fun hx => absurd hx (lt_irrefl a)⟩
  · have hc : alu [a, b] "CMP" 0 1 = .ok (.vint 2) := by
      simp [alu, pyGet, pyIdx, bind, Except.bind, pure, Except.pure,
            show a ≠ b from ne_of_gt h, show a > b from h]
    refine ⟨⟨2, hc, by omega⟩, ?_, ?_, ?_, hself⟩ <;> rw [hc]
    · exact ⟨fun hx => absurd hx (by simp), fun hab => absurd hab (ne_of_gt h)⟩
    · exact ⟨fun _ => h, fun _ => rfl⟩
    · exact ⟨fun hx => absurd hx (by simp),
             fun hab => absurd h (not_lt.mpr hab.le)⟩

/-! ### Claim C4: DIV and MOD with a zero divisor -/

/-- State at a `MOD R0,R1` instruction with `R0 = 7`, `R1 = 0` (zero
divisor). -/
def c4ModState : CPUState :=
  { runInit initState with
      ram := (((List.replicate 256 0).set 0 0b10100100).set 1 0).set 2 1
      reg := ((List.replicate 8 0).set 0 7).set 7 0xF4
      ir := 0b10100100 }

/-- State at a `DIV R0,R1` instruction with `R0 = 7`, `R1 = 0` (zero
divisor). -/
def c4DivState : CPUState :=
  { runInit initState with
      ram := (((List.replicate 256 0).set 0 0b10100011).set 1 0).set 2 1
      reg := ((List.replicate 8 0).set 0 7).set 7 0xF4
      ir := 0b10100011 }

/-- C4: half of the claim holds and half does not.  `MOD` with a zero
divisor makes the ALU raise `ValueError("Division by 0")`, which aborts
the run before any register write, for any amount of fuel.  But `DIV`
with a zero divisor is an infinite loop, not an error: the `DIV` dispatch
arm is literally `pass`, so the ALU is never consulted, the state never
changes, and the run neither terminates nor reports divide-by-zero. -/
theorem c4_divide_by_zero :
    step c4ModState = .error (.valueError "Division by 0") ∧
    (∀ n, runLoop (n + 1) c4ModState = .error (.valueError "Division by 0")) ∧
    step c4DivState = .ok c4DivState ∧
    (∀ n, runLoop n c4DivState = .ok none) := by
  have hrun1 : c4ModState.running = true := rfl
  have hrun2 : c4DivState.running = true := rfl
  have hs1 : step c4ModState = .error (.valueError "Division by 0") := by rfl
  have hs2 : step c4DivState = .ok c4DivState := by rfl
  refine ⟨hs1, ?_, hs2, ?_⟩
  · intro n
    simp [runLoop, hrun1, hs1, bind, Except.bind]
  · intro n
    induction n with
    | zero => simp [runLoop, hrun2]
    | succ n ih => simp [runLoop, hrun2, hs2, bind, Except.bind, ih]

/-! ### Claim C5: unknown opcodes -/

/-- State whose program byte at `pc` is `0b11111111`, an opcode outside
the dispatch table. -/
def c5UnknownState : CPUState :=
  { runInit initState with
      ram := (List.replicate 256 0).set 0 0b11111111
      ir := 0b11111111 }

/-- C5 (counterexample): an opcode outside the instruction table is not a
fatal error: at the byte `0b11111111` the engine keeps `running = true`,
changes nothing, and loops forever without raising anything, for any
amount of fuel. -/
theorem c5_counterexample :
    (0b11111111 : Int) ∉ knownOpcodes ∧
    step c5UnknownState = .ok c5UnknownState ∧
    c5UnknownState.running = true ∧
    (∀ n, runLoop n c5UnknownState = .ok none) := by
  have hrun : c5UnknownState.running = true := rfl
  have hs : step c5UnknownState = .ok c5UnknownState := by rfl
  refine ⟨by decide, hs, hrun, ?_⟩
  intro n
  induction n with
  | zero => simp [runLoop, hrun]
  | succ n ih => simp [runLoop, hrun, hs, bind, Except.bind, ih]

/-- C5 (amended): a fetched opcode byte outside the fixed instruction
table is neither fatal nor skipped: the dispatch chain falls through every
arm, so the step succeeds with the state unchanged except for `ir`, the
PC does not move, and the fetch-decode-execute loop keeps spinning on the
same byte. -/
theorem c5_unknown_opcode_silently_loops (s : CPUState) (instr : Int)
    (h : ram_read s s.pc = .ok instr) (h2 : instr ∉ knownOpcodes) :
    step s = .ok { s with ir := instr } := by
  simp only [knownOpcodes, List.mem_cons, List.not_mem_nil, or_false,
             not_or] at h2
  obtain ⟨n1, n2, n3, n4, n5, n6, n7, n8, n9, n10, n11, n12, n13, n14, n15,
          n16, n17, n18, n19, n20, n21, n22⟩ := h2
  simp [step, h, bind, Except.bind, pure, Except.pure, Functor.map,
        Except.map, n1, n2, n3, n4, n5, n6, n7, n8, n9, n10, n11, n12, n13,
        n14, n15, n16, n17, n18, n19, n20, n21, n22]

/-- C5 witness: the amended theorem applied at the concrete state with
opcode `0b11111111` at the PC. -/
theorem c5_unknown_opcode_silently_loops_witness :
    step c5UnknownState = .ok { c5UnknownState with ir := 0b11111111 } :=
  c5_unknown_opcode_silently_loops c5UnknownState 0b11111111 (by rfl)
    (by decide)

/-! ### Claim C6: memory bounds -/

theorem pyIdx_neg (len : Nat) (i : Int) (h0 : -(len : Int) ≤ i) (h1 : i < 0) :
    pyIdx len i = some (i + len).toNat := by
  unfold pyIdx
  rw [if_neg (by omega), if_pos ⟨h0, h1⟩]

theorem pyIdx_eq_none_iff (len : Nat) (i : Int) :
    pyIdx len i = none ↔ (i < -(len : Int) ∨ (len : Int) ≤ i) := by
  unfold pyIdx
  split_ifs with h1 h2 <;> simp <;> omega

/-- C6 (counterexample): a read at address `-1` does not fail even though
`-1 ∉ [0, 256)` — Python wraps it to cell 255 — and a write there succeeds
as well. -/
theorem c6_counterexample :
    ram_read initState (-1) = .ok 0 ∧
    ¬ (0 ≤ (-1 : Int)) ∧
    ram_write initState (-1) 42 =
      .ok { initState with ram := (List.replicate 256 0).set 255 42 } := by
  refine ⟨rfl, by decide, rfl⟩

/-- C6 (amended): for a 256-cell RAM, a read or write fails with
`IndexError` if and only if the address is outside `[-256, 256)`.
Addresses in `[0, 256)` succeed directly; addresses in `[-256, 0)` wrap to
`address + 256`; a successful write replaces that one cell and has no
other effect. -/
theorem c6_memory_bounds (s : CPUState) (addr v : Int)
    (hlen : s.ram.length = 256) :
    (ram_read s addr = .error .indexError ↔ (addr < -256 ∨ 256 ≤ addr)) ∧
    (ram_write s addr v = .error .indexError ↔ (addr < -256 ∨ 256 ≤ addr)) ∧
    (0 ≤ addr → addr < 256 →
      ram_read s addr = .ok (s.ram.getD addr.toNat 0)) ∧
    (-256 ≤ addr → addr < 0 →
      ram_read s addr = .ok (s.ram.getD (addr + 256).toNat 0)) ∧
    (0 ≤ addr → addr < 256 →
      ram_write s addr v = .ok { s with ram := s.ram.set addr.toNat v }) := by
  refine ⟨?_, ?_, ?_, ?_, ?_⟩
  · unfold ram_read pyGet
    rw [hlen]
    rcases h : pyIdx 256 addr with _ | n
    · rw [pyIdx_eq_none_iff] at h
      simpa using h
    · have : ¬ (addr < -256 ∨ 256 ≤ addr) := by
        intro hc
        rw [show pyIdx 256 addr = none from
              (pyIdx_eq_none_iff 256 addr).mpr (by exact_mod_cast hc)] at h
        exact Option.noConfusion h
      simp only [this, iff_false]
      intro hc
      exact Except.noConfusion hc
  · unfold ram_write pySet
    rw [hlen]
    rcases h : pyIdx 256 addr with _ | n
    · rw [pyIdx_eq_none_iff] at h
      simp [bind, Except.bind]
      exact_mod_cast h
    · have : ¬ (addr < -256 ∨ 256 ≤ addr) := by
        intro hc
        rw [show pyIdx 256 addr = none from
              (pyIdx_eq_none_iff 256 addr).mpr (by exact_mod_cast hc)] at h
        exact Option.noConfusion h
      simp only [bind, Except.bind, this, iff_false]
      intro hc
      exact Except.noConfusion hc
  · intro h0 h1
    unfold ram_read
    rw [pyGet_ok s.ram addr h0 (by omega)]
  · intro h0 h1
    unfold ram_read pyGet
    rw [hlen, pyIdx_neg 256 addr (by exact_mod_cast h0) h1]
    rfl
  · intro h0 h1
    unfold ram_write
    rw [pySet_ok s.ram addr v h0 (by omega)]
    rfl

/-- C6 witness: the amended theorem applied to the initial state at the
out-of-range address `300`. -/
theorem c6_memory_bounds_witness :
    ram_read initState 300 = .error .indexError ↔
      ((300 : Int) < -256 ∨ (256 : Int) ≤ 300) :=
  (c6_memory_bounds initState 300 0 (by simp [initState])).1

/-! ### Characterisations of the four stack-related dispatch arms -/

theorem getD_set_ne (l : List Int) (m n : Nat) (v d : Int) (h : m ≠ n) :
    (l.set m v).getD n d = l.getD n d := by
  simp [List.getD, List.getElem?_set_ne h]

theorem getD_set_self (l : List Int) (m : Nat) (v d : Int) (h : m < l.length) :
    (l.set m v).getD m d = v := by
  simp [List.getD, List.getElem?_set_self, h]

/-- The PUSH arm: decrement `sp`, write the register's value at the new
`sp`, advance `pc` by 2. -/
theorem step_PUSH (s : CPUState) (r : Int)
    (hpc0 : 0 ≤ s.pc) (hpc1 : s.pc + 1 < (s.ram.length : Int))
    (hop : s.ram.getD s.pc.toNat 0 = 0b01000101)
    (hr : s.ram.getD (s.pc + 1).toNat 0 = r)
    (hr0 : 0 ≤ r) (hr1 : r < (s.reg.length : Int))
    (hsp0 : 0 ≤ s.sp - 1) (hsp1 : s.sp - 1 < (s.ram.length : Int)) :
    step s = .ok { s with
      ir := 0b01000101
      sp := s.sp - 1
      ram := s.ram.set (s.sp - 1).toNat (s.reg.getD r.toNat 0)
      pc := s.pc + 2 } := by
  have hfetch : pyGet s.ram s.pc = .ok 0b01000101 := by
    rw [pyGet_ok s.ram s.pc hpc0 (by omega), hop]
  have hfetch1 : pyGet s.ram (s.pc + 1) = .ok r := by
    rw [pyGet_ok s.ram (s.pc + 1) (by omega) (by omega), hr]
  have hregr : pyGet s.reg r = .ok (s.reg.getD r.toNat 0) :=
    pyGet_ok _ _ hr0 hr1
  have hwrite : pySet s.ram (s.sp - 1) (s.reg.getD r.toNat 0)
      = .ok (s.ram.set (s.sp - 1).toNat (s.reg.getD r.toNat 0)) :=
    pySet_ok _ _ _ hsp0 hsp1
  simp only [List.getD_eq_getElem?_getD] at hregr hwrite ⊢
  simp [step, ram_read, hfetch, hfetch1, hregr, hwrite, bind, Except.bind,
        pure, Except.pure, Functor.map, Except.map,
        show pc_increment 0b01000101 = 2 from rfl]

/-- The POP arm: read the cell at `sp` into the named register, increment
`sp`, advance `pc` by 2. -/
theorem step_POP (s : CPUState) (r : Int)
    (hpc0 : 0 ≤ s.pc) (hpc1 : s.pc + 1 < (s.ram.length : Int))
    (hop : s.ram.getD s.pc.toNat 0 = 0b01000110)
    (hr : s.ram.getD (s.pc + 1).toNat 0 = r)
    (hr0 : 0 ≤ r) (hr1 : r < (s.reg.length : Int))
    (hsp0 : 0 ≤ s.sp) (hsp1 : s.sp < (s.ram.length : Int)) :
    step s = .ok { s with
      ir := 0b01000110
      reg := s.reg.set r.toNat (s.ram.getD s.sp.toNat 0)
      sp := s.sp + 1
      pc := s.pc + 2 } := by
  have hfetch : pyGet s.ram s.pc = .ok 0b01000110 := by
    rw [pyGet_ok s.ram s.pc hpc0 (by omega), hop]
  have hfetch1 : pyGet s.ram (s.pc + 1) = .ok r := by
    rw [pyGet_ok s.ram (s.pc + 1) (by omega) (by omega), hr]
  have hvalue : pyGet s.ram s.sp = .ok (s.ram.getD s.sp.toNat 0) :=
    pyGet_ok _ _ hsp0 hsp1
  have hset : pySet s.reg r (s.ram.getD s.sp.toNat 0)
      = .ok (s.reg.set r.toNat (s.ram.getD s.sp.toNat 0)) :=
    pySet_ok _ _ _ hr0 hr1
  simp only [List.getD_eq_getElem?_getD] at hvalue hset ⊢
  simp [step, ram_read, hfetch, hfetch1, hvalue, hset, bind, Except.bind,
        pure, Except.pure, Functor.map, Except.map,
        show pc_increment 0b01000110 = 2 from rfl]

/-- The CALL arm: push the return address `pc + 2`, then jump to the
address held in the named register. -/
theorem step_CALL (s : CPUState) (r : Int)
    (hpc0 : 0 ≤ s.pc) (hpc1 : s.pc + 1 < (s.ram.length : Int))
    (hop : s.ram.getD s.pc.toNat 0 = 0b01010000)
    (hr : s.ram.getD (s.pc + 1).toNat 0 = r)
    (hr0 : 0 ≤ r) (hr1 : r < (s.reg.length : Int))
    (hsp0 : 0 ≤ s.sp - 1) (hsp1 : s.sp - 1 < (s.ram.length : Int)) :
    step s = .ok { s with
      ir := 0b01010000
      sp := s.sp - 1
      ram := s.ram.set (s.sp - 1).toNat (s.pc + 2)
      pc := s.reg.getD r.toNat 0 } := by
  have hfetch : pyGet s.ram s.pc = .ok 0b01010000 := by
    rw [pyGet_ok s.ram s.pc hpc0 (by omega), hop]
  have hfetch1 : pyGet s.ram (s.pc + 1) = .ok r := by
    rw [pyGet_ok s.ram (s.pc + 1) (by omega) (by omega), hr]
  have hregr : pyGet s.reg r = .ok (s.reg.getD r.toNat 0) :=
    pyGet_ok _ _ hr0 hr1
  have hwrite : pySet s.ram (s.sp - 1) (s.pc + 2)
      = .ok (s.ram.set (s.sp - 1).toNat (s.pc + 2)) :=
    pySet_ok _ _ _ hsp0 hsp1
  simp only [List.getD_eq_getElem?_getD] at hregr hwrite ⊢
  simp [step, ram_read, hfetch, hfetch1, hregr, hwrite, bind, Except.bind,
        pure, Except.pure, Functor.map, Except.map]

/-- The RET arm: pop the cell at `sp` into `pc`, increment `sp`. -/
theorem step_RET (s : CPUState)
    (hpc0 : 0 ≤ s.pc) (hpc1 : s.pc < (s.ram.length : Int))
    (hop : s.ram.getD s.pc.toNat 0 = 0b00010001)
    (hsp0 : 0 ≤ s.sp) (hsp1 : s.sp < (s.ram.length : Int)) :
    step s = .ok { s with
      ir := 0b00010001
      sp := s.sp + 1
      pc := s.ram.getD s.sp.toNat 0 } := by
  have hfetch : pyGet s.ram s.pc = .ok 0b00010001 := by
    rw [pyGet_ok s.ram s.pc hpc0 hpc1, hop]
  have hvalue : pyGet s.ram s.sp = .ok (s.ram.getD s.sp.toNat 0) :=
    pyGet_ok _ _ hsp0 hsp1
  simp only [List.getD_eq_getElem?_getD] at hvalue ⊢
  simp [step, ram_read, hfetch, hvalue, bind, Except.bind,
        pure, Except.pure, Functor.map, Except.map]

/-! ### Claim C8: PUSH then POP round-trips -/

/-- C8: from any state whose program holds `PUSH r` at the PC followed by
`POP r'`, with in-range stack pointer and register operands and with the
stack cell distinct from the two `POP` program bytes, executing the two
instructions leaves `r'` holding the value `r` held at the PUSH and
restores the stack pointer to its pre-PUSH value. -/
theorem c8_push_pop_roundtrip (s : CPUState) (r r' : Int)
    (hlen : s.ram.length = 256) (hreg : s.reg.length = 8)
    (hpc0 : 0 ≤ s.pc) (hpc1 : s.pc + 3 < 256)
    (hop : s.ram.getD s.pc.toNat 0 = 0b01000101)
    (hr : s.ram.getD (s.pc + 1).toNat 0 = r)
    (hr0 : 0 ≤ r) (hr1 : r < 8)
    (hop2 : s.ram.getD (s.pc + 2).toNat 0 = 0b01000110)
    (hr' : s.ram.getD (s.pc + 3).toNat 0 = r')
    (hr'0 : 0 ≤ r') (hr'1 : r' < 8)
    (hsp0 : 1 ≤ s.sp) (hsp1 : s.sp ≤ 256)
    (hnc1 : s.sp - 1 ≠ s.pc + 2) (hnc2 : s.sp - 1 ≠ s.pc + 3) :
    ∃ s1 s2, step s = .ok s1 ∧ step s1 = .ok s2 ∧
      s2.reg.getD r'.toNat 0 = s.reg.getD r.toNat 0 ∧
      s2.sp = s.sp := by
  have h1 := step_PUSH s r hpc0 (by omega) hop hr hr0 (by omega)
    (by omega) (by omega)
  have h2 := step_POP
    { s with ir := 0b01000101, sp := s.sp - 1,
             ram := s.ram.set (s.sp - 1).toNat (s.reg.getD r.toNat 0),
             pc := s.pc + 2 } r'
    (by show (0 : Int) ≤ s.pc + 2; omega)
    (by show s.pc + 2 + 1 <
          ((s.ram.set (s.sp - 1).toNat (s.reg.getD r.toNat 0)).length : Int)
        rw [List.length_set]; omega)
    (by show (s.ram.set (s.sp - 1).toNat
          (s.reg.getD r.toNat 0)).getD (s.pc + 2).toNat 0 = 0b01000110
        rw [getD_set_ne _ _ _ _ _ (by omega)]; exact hop2)
    (by show (s.ram.set (s.sp - 1).toNat
          (s.reg.getD r.toNat 0)).getD (s.pc + 2 + 1).toNat 0 = r'
        rw [getD_set_ne _ _ _ _ _ (by omega),
            show s.pc + 2 + 1 = s.pc + 3 by ring]
        exact hr')
    hr'0 (by show r' < (s.reg.length : Int); omega)
    (by show (0 : Int) ≤ s.sp - 1; omega)
    (by show s.sp - 1 <
          ((s.ram.set (s.sp - 1).toNat (s.reg.getD r.toNat 0)).length : Int)
        rw [List.length_set]; omega)
  refine ⟨_, _, h1, h2, ?_, ?_⟩
  · show (s.reg.set r'.toNat ((s.ram.set (s.sp - 1).toNat
        (s.reg.getD r.toNat 0)).getD (s.sp - 1).toNat 0)).getD r'.toNat 0
      = s.reg.getD r.toNat 0
    rw [getD_set_self s.ram _ _ _ (by omega),
        getD_set_self s.reg _ _ _ (by omega)]
  · show s.sp - 1 + 1 = s.sp
    omega

/-- Start-of-run state whose program is `PUSH R3; POP R5`, with `R3 = 42`
and the stack pointer at `0xF4`. -/
def c8State : CPUState :=
  { reg := [0, 0, 0, 42, 0, 0, 0, 0xF4]
    ram := (((List.replicate 256 0).set 0 0b01000101).set 1 3
             |>.set 2 0b01000110 |>.set 3 5)
    sp := 0xF4
    pc := 0
    ir := 0b00000001
    fl := 0
    running := true
    output := [] }

/-- C8 witness: the round-trip theorem applied to the concrete program
`PUSH R3; POP R5` with `R3 = 42` and `SP = 0xF4`. -/
theorem c8_push_pop_roundtrip_witness :
    ∃ s1 s2, step c8State = .ok s1 ∧ step s1 = .ok s2 ∧
      s2.reg.getD ((5 : Int)).toNat 0 = c8State.reg.getD ((3 : Int)).toNat 0 ∧
      s2.sp = c8State.sp :=
  c8_push_pop_roundtrip c8State 3 5 (by decide) (by decide) (by decide)
    (by decide) (by decide) (by decide) (by decide) (by decide) (by decide)
    (by decide) (by decide) (by decide) (by decide) (by decide) (by decide)
    (by decide)

/-! ### Claim C9: CALL then RET -/

/-- C9: from any state whose program holds `CALL r` at the PC, where
register `r` holds an in-range subroutine address `a` whose cell holds
`RET`, and whose stack cell `sp - 1` is in range and distinct from `a`:
the CALL pushes the return address `pc + 2` onto the stack and jumps to
`a`, and the RET then restores the PC to exactly `pc + 2` — the
instruction directly after the CALL's operand byte — with the stack
pointer back at its pre-CALL value. -/
theorem c9_call_ret_returns (s : CPUState) (r a : Int)
    (hlen : s.ram.length = 256) (hreg : s.reg.length = 8)
    (hpc0 : 0 ≤ s.pc) (hpc1 : s.pc + 1 < 256)
    (hop : s.ram.getD s.pc.toNat 0 = 0b01010000)
    (hr : s.ram.getD (s.pc + 1).toNat 0 = r)
    (hr0 : 0 ≤ r) (hr1 : r < 8)
    (ha : s.reg.getD r.toNat 0 = a) (ha0 : 0 ≤ a) (ha1 : a < 256)
    (hret : s.ram.getD a.toNat 0 = 0b00010001)
    (hsp0 : 1 ≤ s.sp) (hsp1 : s.sp ≤ 256)
    (hnc : s.sp - 1 ≠ a) :
    ∃ s1 s2, step s = .ok s1 ∧ step s1 = .ok s2 ∧
      s1.ram.getD (s.sp - 1).toNat 0 = s.pc + 2 ∧
      s1.pc = a ∧
      s2.pc = s.pc + 2 ∧
      s2.sp = s.sp := by
  have h1 := step_CALL s r hpc0 (by omega) hop hr hr0 (by omega)
    (by omega) (by omega)
  have h2 := step_RET
    { s with ir := 0b01010000, sp := s.sp - 1,
             ram := s.ram.set (s.sp - 1).toNat (s.pc + 2),
             pc := s.reg.getD r.toNat 0 }
    (by show (0 : Int) ≤ s.reg.getD r.toNat 0; omega)
    (by show s.reg.getD r.toNat 0 <
          ((s.ram.set (s.sp - 1).toNat (s.pc + 2)).length : Int)
        rw [List.length_set]; omega)
    (by show (s.ram.set (s.sp - 1).toNat
          (s.pc + 2)).getD (s.reg.getD r.toNat 0).toNat 0 = 0b00010001
        rw [ha, getD_set_ne _ _ _ _ _ (by omega)]; exact hret)
    (by show (0 : Int) ≤ s.sp - 1; omega)
    (by show s.sp - 1 <
          ((s.ram.set (s.sp - 1).toNat (s.pc + 2)).length : Int)
        rw [List.length_set]; omega)
  refine ⟨_, _, h1, h2, ?_, ?_, ?_, ?_⟩
  · show (s.ram.set (s.sp - 1).toNat (s.pc + 2)).getD (s.sp - 1).toNat 0
      = s.pc + 2
    exact getD_set_self s.ram _ _ _ (by omega)
  · show s.reg.getD r.toNat 0 = a
    exact ha
  · show (s.ram.set (s.sp - 1).toNat (s.pc + 2)).getD (s.sp - 1).toNat 0
      = s.pc + 2
    exact getD_set_self s.ram _ _ _ (by omega)
  · show s.sp - 1 + 1 = s.sp
    omega

/-- Start-of-run state whose program is `CALL R0` with `R0 = 10`, a `RET`
at address 10, and the stack pointer at `0xF4`. -/
def c9State : CPUState :=
  { reg := [10, 0, 0, 0, 0, 0, 0, 0xF4]
    ram := (((List.replicate 256 0).set 0 0b01010000).set 1 0).set 10
             0b00010001
    sp := 0xF4
    pc := 0
    ir := 0b00000001
    fl := 0
    running := true
    output := [] }

/-- C9 witness: the CALL/RET theorem applied to the concrete program
`CALL R0` with the subroutine at address 10 holding a lone `RET`. -/
theorem c9_call_ret_returns_witness :
    ∃ s1 s2, step c9State = .ok s1 ∧ step s1 = .ok s2 ∧
      s1.ram.getD (c9State.sp - 1).toNat 0 = c9State.pc + 2 ∧
      s1.pc = 10 ∧
      s2.pc = c9State.pc + 2 ∧
      s2.sp = c9State.sp :=
  c9_call_ret_returns c9State 0 10 (by decide) (by decide) (by decide)
    (by decide) (by decide) (by decide) (by decide) (by decide) (by decide)
    (by decide) (by decide) (by decide) (by decide) (by decide) (by decide)

/-! ### Claim C10: register frame effects of the stack operations -/

/-- State at a `POP R7` instruction: the cell at `sp = 10` holds `99`. -/
def c10PopState : CPUState :=
  { reg := [0, 0, 0, 0, 0, 0, 0, 0xF4]
    ram := (((List.replicate 256 0).set 0 0b01000110).set 1 7).set 10 99
    sp := 10
    pc := 0
    ir := 0b00000001
    fl := 0
    running := true
    output := [] }

/-- C10 (counterexample): a stack operation can modify R7 after all: a
`POP` whose operand byte is `7` writes the popped value into `R7`,
changing it from `0xF4` to `99`. -/
theorem c10_counterexample :
    c10PopState.ram.getD 1 0 = 7 ∧
    c10PopState.reg.getD 7 0 = 0xF4 ∧
    (step c10PopState).toOption.map (fun s => s.reg.getD 7 0) = some 99 ∧
    (99 : Int) ≠ 0xF4 := by
  refine ⟨rfl, rfl, rfl, by decide⟩

/-- C10 (amended): whenever a step fetches `PUSH`, `CALL` or `RET` and
succeeds, the whole register file — R7 included — is unchanged; whenever
a step fetches `POP` with a nonnegative operand byte `r` and succeeds,
the resulting register file is the old one with only cell `r` replaced
(so R7 is modified by a stack operation exactly when a POP names R7). -/
theorem c10_stack_ops_register_frame :
    (∀ s s' : CPUState,
      (pyGet s.ram s.pc = .ok 0b01000101 ∨ pyGet s.ram s.pc = .ok 0b01010000 ∨
       pyGet s.ram s.pc = .ok 0b00010001) →
      step s = .ok s' → s'.reg = s.reg) ∧
    (∀ s s' : CPUState, ∀ r : Int,
      pyGet s.ram s.pc = .ok 0b01000110 →
      pyGet s.ram (s.pc + 1) = .ok r → 0 ≤ r →
      step s = .ok s' → ∃ v, s'.reg = s.reg.set r.toNat v) := by
  constructor
  · intro s s' hop hstep
    rcases hop with hop | hop | hop
    · -- PUSH
      simp [step, ram_read, hop, bind, Except.bind, pure, Except.pure]
        at hstep
      rcases e1 : pyGet s.ram (s.pc + 1) with e | v1
      · rw [e1] at hstep; simp at hstep
      · rw [e1] at hstep
        simp at hstep
        rcases e2 : pyGet s.reg v1 with e | v2
        · rw [e2] at hstep; simp at hstep
        · rw [e2] at hstep
          simp at hstep
          rcases e3 : pySet s.ram (s.sp - 1) v2 with e | ram1
          · rw [e3] at hstep; simp at hstep
          · rw [e3] at hstep
            simp at hstep
            subst hstep
            rfl
    · -- CALL
      simp [step, ram_read, hop, bind, Except.bind, pure, Except.pure]
        at hstep
      rcases e1 : pySet s.ram (s.sp - 1) (s.pc + 2) with e | ram1
      · rw [e1] at hstep; simp at hstep
      · rw [e1] at hstep
        simp at hstep
        rcases e2 : pyGet s.ram (s.pc + 1) with e | v1
        · rw [e2] at hstep; simp at hstep
        · rw [e2] at hstep
          simp at hstep
          rcases e3 : pyGet s.reg v1 with e | v2
          · rw [e3] at hstep; simp at hstep
          · rw [e3] at hstep
            simp at hstep
            subst hstep
            rfl
    · -- RET
      simp [step, ram_read, hop, bind, Except.bind, pure, Except.pure]
        at hstep
      rcases e1 : pyGet s.ram s.sp with e | v1
      · rw [e1] at hstep; simp at hstep
      · rw [e1] at hstep
        simp at hstep
        subst hstep
        rfl
  · intro s s' r hop hr hr0 hstep
    simp [step, ram_read, hop, bind, Except.bind, pure, Except.pure] at hstep
    rcases e1 : pyGet s.ram s.sp with e | v
    · rw [e1] at hstep; simp at hstep
    · rw [e1, hr] at hstep
      simp at hstep
      rcases e3 : pySet s.reg r v with e | reg1
      · rw [e3] at hstep; simp at hstep
      · rw [e3] at hstep
        simp at hstep
        subst hstep
        refine ⟨v, ?_⟩
        have hidx : pyIdx s.reg.length r = some r.toNat ∨
            pyIdx s.reg.length r = none := by
          unfold pyIdx
          split_ifs with h1 h2
          · left; rfl
          · exact absurd h2 (by omega)
          · right; rfl
        unfold pySet at e3
        rcases hidx with hidx | hidx
        · rw [hidx] at e3
          simp at e3
          rw [← e3]
        · rw [hidx] at e3
          exact absurd e3 (by simp)

/-- Start-of-run state whose program is `PUSH R3`, used to witness the
frame theorem at a concrete input. -/
def c10FrameState : CPUState :=
  { reg := [1, 2, 3, 4, 5, 6, 7, 0xF4]
    ram := ((List.replicate 256 0).set 0 0b01000101).set 1 3
    sp := 0xF4
    pc := 0
    ir := 0b00000001
    fl := 0
    running := true
    output := [] }

/-- The state after one step of `c10FrameState`, extracted by
evaluation. -/
def c10FrameStateAfter : CPUState :=
  ((step c10FrameState).toOption).getD initState

/-- C10 witness: the frame theorem applied to the concrete `PUSH R3`
state. -/
theorem c10_stack_ops_register_frame_witness :
    c10FrameStateAfter.reg = c10FrameState.reg :=
  c10_stack_ops_register_frame.1 c10FrameState c10FrameStateAfter
    (Or.inl (by rfl)) (by rfl)

end LS8
